import Mathlib

/-!
Verification of the resilient request executor of the Trello Desktop MCP
server (`src/trello/client.ts`). The TypeScript code is shallowly embedded:

* JS numbers that can only hold integers or `NaN` are modelled as
  `Option Int` (`none` = `NaN`);
* `Headers` objects are modelled as association lists `List (String × String)`
  with `headersGet` playing the role of `Headers.get` (returning `none` for a
  missing header, standing for JS `null`);
* the values thrown inside `makeRequest` (a `TypeError` from `fetch`, an
  `AbortError` from the timeout controller, or the non-ok `Response` itself)
  are modelled by the inductive `JsError`; `handleError` receives an
  `Option JsError` because the post-loop `throw this.handleError(lastError)`
  can run with `lastError` still `undefined`;
* one physical attempt's observable outcome is an `AttemptOutcome`; the body
  of a response models `await response.json() as T` (an unvalidated cast, so
  the parsed payload is carried in the outcome);
* the `for` loop of `makeRequest` is embedded as structural recursion on the
  number of remaining loop iterations (`fuel`), which starts at
  `retryConfig.maxRetries`, together with the 1-based `attempt` counter used
  by the source; the returned `RunResult` additionally records the number of
  physical attempts issued and the arguments of every `sleep` call
  (`none` = `NaN` milliseconds, which `setTimeout` treats as no delay).
-/

namespace Trello

/-- JS whitespace characters skipped by `parseInt` (the common ASCII ones). -/
def isJsWhitespace (c : Char) : Bool :=
  c = ' ' || c = '\t' || c = '\n' || c = '\r' || c = '\x0b' || c = '\x0c'

/-- Leading decimal-digit run of a character list, as consumed by `parseInt`. -/
def takeDigits : List Char → List Char
  | [] => []
  | c :: cs => if c.isDigit then c :: takeDigits cs else []

/-- Numeric value of a list of decimal digits. -/
def digitsVal (ds : List Char) : Nat :=
  ds.foldl (fun a c => a * 10 + (c.toNat - '0'.toNat)) 0

/-- JS `parseInt(s, 10)`: skip leading whitespace, read an optional sign and a
leading run of decimal digits; `NaN` (here `none`) if no digits follow. -/
def parseIntJS (s : String) : Option Int :=
  let cs := s.data.dropWhile isJsWhitespace
  let signAndRest : Int × List Char :=
    match cs with
    | '-' :: rest => (-1, rest)
    | '+' :: rest => (1, rest)
    | _ => (1, cs)
  let ds := takeDigits signAndRest.2
  if ds.isEmpty then none else some (signAndRest.1 * (digitsVal ds : Int))

/-- JS `a || b` for a nullable string `a` (both `null` and `""` are falsy). -/
def jsOrString (a : Option String) (b : String) : String :=
  match a with
  | some s => if s = "" then b else s
  | none => b

/-- JS `a || b` for a number `a` that may be `NaN` (`NaN` and `0` are falsy). -/
def jsNumOr (a : Option Int) (b : Int) : Int :=
  match a with
  | some n => if n = 0 then b else n
  | none => b

/-- JS multiplication of a possibly-`NaN` number by an integer constant
(`NaN * k = NaN`). -/
def jsMulNum (a : Option Int) (k : Int) : Option Int :=
  a.map (fun n => n * k)

/-- Truthiness of a nullable JS string (`null` and `""` are falsy). -/
def strTruthy (a : Option String) : Bool :=
  match a with
  | some s => s ≠ ""
  | none => false

/-- `Headers.get(name)`: first header with the given name, `none` for JS
`null` when the header is absent. -/
def headersGet (headers : List (String × String)) (name : String) : Option String :=
  (headers.find? (fun p => p.1 == name)).map (·.2)

/-- The `RateLimitInfo` interface of `src/types/trello.ts`. `remaining` and
`resetTime` come straight from `parseInt`, so they can be `NaN` (`none`);
`limit` cannot, because of the `|| 300` fallback. -/
structure RateLimitInfo where
  limit : Int
  remaining : Option Int
  resetTime : Option Int
deriving Repr, DecidableEq

/-- `TrelloClient.extractRateLimitInfo`: a snapshot is produced exactly when
the `x-rate-limit-api-key-limit` header is truthy (present and non-empty). -/
def extractRateLimitInfo (headers : List (String × String)) : Option RateLimitInfo :=
  let limit := headersGet headers "x-rate-limit-api-key-limit"
  let remaining := headersGet headers "x-rate-limit-api-key-remaining"
  let reset := headersGet headers "x-rate-limit-api-key-reset"
  if strTruthy limit then
    some { limit := jsNumOr (parseIntJS (limit.getD "")) 300
         , remaining := parseIntJS (jsOrString remaining "0")
         , resetTime := parseIntJS (jsOrString reset "0") }
  else
    none

/-- The `RetryConfig` interface of `client.ts`. -/
structure RetryConfig where
  maxRetries : Nat
  baseDelay : Nat
  maxDelay : Nat
deriving Repr, DecidableEq

/-- The hard-coded `retryConfig` of `TrelloClient`. -/
def defaultRetryConfig : RetryConfig :=
  { maxRetries := 3, baseDelay := 1000, maxDelay := 10000 }

/-- `TrelloClient.calculateBackoffDelay` (only ever called with
`attempt ≥ 1`, so the truncated `Nat` subtraction agrees with the source). -/
def calculateBackoffDelay (cfg : RetryConfig) (attempt : Nat) : Nat :=
  min (cfg.baseDelay * 2 ^ (attempt - 1)) cfg.maxDelay

/-- The values thrown inside `makeRequest`, as discriminated by `handleError`
and `shouldRetry`: a `TypeError` from `fetch` whose message mentions `fetch`,
an `AbortError`, a non-ok `Response` (only its `status`/`statusText` are
inspected after being thrown), or any other thrown value. -/
inductive JsError where
  | fetchTypeError (msg : String)
  | abortError (msg : String)
  | response (status : Nat) (statusText : String)
  | other (msg : String)
deriving Repr, DecidableEq

/-- The `TrelloError` interface: the only error shape surfaced to callers. -/
structure TrelloError where
  message : String
  error : Option String := none
  status : Option Nat := none
  code : Option String := none
deriving Repr, DecidableEq

/-- `TrelloClient.handleError`. The argument is an `Option` because the
post-loop call site passes `lastError`, which is still `undefined` when no
attempt ever threw; `undefined` fails all three `instanceof`/`in` tests and
lands in the unclassified branch with `String(undefined) = "undefined"`. -/
def handleError : Option JsError → TrelloError
  | some (.fetchTypeError msg) =>
      { message := "Network error - unable to reach Trello API"
      , error := some msg, code := some "NETWORK_ERROR" }
  | some (.abortError msg) =>
      { message := "Request timeout - Trello API did not respond in time"
      , error := some msg, code := some "TIMEOUT_ERROR" }
  | some (.response status statusText) =>
      let messageAndCode : String × String :=
        if status = 401 then
          ("Invalid or expired Trello credentials. Please update your API key and token in Claude.app's MCP connection settings.",
           "INVALID_CREDENTIALS")
        else if status = 403 then
          ("Insufficient permissions. Your Trello token may need additional permissions, or the resource may be private. Please check your Trello settings or update your token in Claude.app.",
           "INSUFFICIENT_PERMISSIONS")
        else if status = 404 then ("Resource not found", "NOT_FOUND")
        else if status = 429 then ("Rate limit exceeded", "RATE_LIMIT_EXCEEDED")
        else if status = 500 then ("Trello server error", "SERVER_ERROR")
        else (s!"HTTP {status} error", "API_ERROR")
      { message := messageAndCode.1
      , error := some s!"{status} - {statusText}"
      , status := some status
      , code := some messageAndCode.2 }
  | some (.other msg) =>
      { message := "Unknown error occurred", error := some msg
      , code := some "UNKNOWN_ERROR" }
  | none =>
      { message := "Unknown error occurred", error := some "undefined"
      , code := some "UNKNOWN_ERROR" }

/-- `TrelloClient.shouldRetry`. -/
def shouldRetry : JsError → Bool
  | .fetchTypeError _ => true
  | .abortError _ => true
  | .response status _ => decide (500 ≤ status) || status == 429
  | .other _ => false

/-- An HTTP response as observed by one attempt; `body` models
`await response.json() as T` (an unvalidated cast). -/
structure HttpResponse (T : Type) where
  status : Nat
  statusText : String
  headers : List (String × String)
  body : T
deriving Repr, DecidableEq

/-- `Response.ok`: status in the 200–299 range. -/
def responseOk {T : Type} (r : HttpResponse T) : Bool :=
  decide (200 ≤ r.status ∧ r.status ≤ 299)

/-- Observable outcome of one physical attempt of `fetchWithTimeout`:
a response, a network-level `TypeError` from `fetch`, or an `AbortError`
from the per-attempt timeout. -/
inductive AttemptOutcome (T : Type) where
  | response (r : HttpResponse T)
  | fetchError (msg : String)
  | abortError (msg : String)
deriving Repr, DecidableEq

/-- The value a failed attempt throws (the non-ok `Response` itself for HTTP
failures, per `throw response`). -/
def toJsError {T : Type} : AttemptOutcome T → JsError
  | .response r => .response r.status r.statusText
  | .fetchError msg => .fetchTypeError msg
  | .abortError msg => .abortError msg

/-- The check `error instanceof Response && error.status === 429` in the
`catch` block of `makeRequest`. -/
def isResponse429 : JsError → Bool
  | .response status _ => status == 429
  | _ => false

/-- The `TrelloApiResponse<T>` shape `{ data, rateLimit }`. -/
structure ApiResponse (T : Type) where
  data : T
  rateLimit : Option RateLimitInfo
deriving Repr, DecidableEq

/-- Result of one logical `makeRequest` call, together with the observable
execution trace: how many physical attempts were issued and the millisecond
argument of each `sleep` call in order (`none` = `NaN`). -/
structure RunResult (T : Type) where
  result : Except TrelloError (ApiResponse T)
  attempts : Nat
  sleeps : List (Option Int)
deriving Repr

/-- The `catch` block of `makeRequest`, for the attempt that just failed by
throwing `e`: a thrown 429 response would `continue` immediately (dead in
practice, since 429 is consumed inside the `try`); a retryable error on a
non-final attempt sleeps the exponential back-off delay and continues;
anything else throws `handleError(error)`. `cont` is the run of the remaining
loop iterations with `lastError := some e`. -/
def makeRequestCatch {T : Type} (cfg : RetryConfig) (attempt : Nat) (e : JsError)
    (cont : RunResult T) : RunResult T :=
  if isResponse429 e then
    { result := cont.result, attempts := cont.attempts + 1, sleeps := cont.sleeps }
  else if attempt < cfg.maxRetries ∧ shouldRetry e then
    { result := cont.result
    , attempts := cont.attempts + 1
    , sleeps := some (Int.ofNat (calculateBackoffDelay cfg attempt)) :: cont.sleeps }
  else
    { result := .error (handleError (some e)), attempts := 1, sleeps := [] }

/-- The attempt loop of `TrelloClient.makeRequest`, by structural recursion on
the number of remaining iterations. `outcomes n` is the outcome of physical
attempt `n`; `fuel = 0` is the loop condition `attempt ≤ maxRetries` failing,
which throws `handleError(lastError)`. Inside the `try`: an ok response
returns `{ data, rateLimit }` at once; a 429 parses `retry-after` (with the
`|| '60'` fallback), sleeps `retryAfter * 1000` ms and continues to the next
iteration without recording `lastError`; any other non-ok response is thrown
to the `catch`. -/
def makeRequestGo {T : Type} (cfg : RetryConfig) (outcomes : Nat → AttemptOutcome T) :
    Nat → Nat → Option JsError → RunResult T
  | 0, _, lastError =>
      { result := .error (handleError lastError), attempts := 0, sleeps := [] }
  | fuel + 1, attempt, lastError =>
      match outcomes attempt with
      | .response r =>
          if responseOk r then
            { result := .ok { data := r.body, rateLimit := extractRateLimitInfo r.headers }
            , attempts := 1, sleeps := [] }
          else if r.status = 429 then
            let retryAfter := parseIntJS (jsOrString (headersGet r.headers "retry-after") "60")
            let rest := makeRequestGo cfg outcomes fuel (attempt + 1) lastError
            { result := rest.result
            , attempts := rest.attempts + 1
            , sleeps := jsMulNum retryAfter 1000 :: rest.sleeps }
          else
            makeRequestCatch cfg attempt (.response r.status r.statusText)
              (makeRequestGo cfg outcomes fuel (attempt + 1)
                (some (.response r.status r.statusText)))
      | .fetchError msg =>
          makeRequestCatch cfg attempt (.fetchTypeError msg)
            (makeRequestGo cfg outcomes fuel (attempt + 1) (some (.fetchTypeError msg)))
      | .abortError msg =>
          makeRequestCatch cfg attempt (.abortError msg)
            (makeRequestGo cfg outcomes fuel (attempt + 1) (some (.abortError msg)))

/-- `TrelloClient.makeRequest`: run the attempt loop from attempt 1 with
`lastError` undefined. -/
def makeRequest {T : Type} (cfg : RetryConfig) (outcomes : Nat → AttemptOutcome T) :
    RunResult T :=
  makeRequestGo cfg outcomes cfg.maxRetries 1 none

/-- The `TrelloCredentials` interface. -/
structure TrelloCredentials where
  apiKey : String
  token : String
deriving Repr, DecidableEq

/-- The fixed `baseURL` of `TrelloClient`. -/
def baseURL : String := "https://api.trello.com/1"

/-- `URLSearchParams.set(k, v)`: replace the value of the first entry named
`k` in place, or append a new entry. (`set` also deletes later duplicates,
but the query list is only ever built with `set` starting from the empty
list, so duplicate keys never occur.) -/
def setParam : List (String × String) → String → String → List (String × String)
  | [], k, v => [(k, v)]
  | p :: ps, k, v => if p.1 = k then (k, v) :: ps else p :: setParam ps k v

/-- Value of the first query entry named `k` (`URLSearchParams.get`). -/
def lookupQ (q : List (String × String)) (k : String) : Option String :=
  (q.find? (fun p => p.1 == k)).map (·.2)

/-- The `Object.entries(params).forEach` loop of `buildURL`: add each entry
whose value is not `undefined` with `searchParams.set`. -/
def addParams (q : List (String × String)) (params : List (String × Option String)) :
    List (String × String) :=
  params.foldl
    (fun acc kv =>
      match kv.2 with
      | some v => setParam acc kv.1 v
      | none => acc)
    q

/-- A built URL: the joined base-plus-endpoint string (treated as an opaque
path here; the endpoints of this client contain no query or fragment parts)
and the query list in insertion order. -/
structure BuiltURL where
  base : String
  query : List (String × String)
deriving Repr, DecidableEq

/-- `TrelloClient.buildURL`: join the base address with the endpoint, `set`
the two credential query parameters `key` and `token`, then `set` every
defined extra parameter. Parameter values are modelled as `Option String`
because the source guards each entry with `value !== undefined`. -/
def buildURL (creds : TrelloCredentials) (endpoint : String)
    (params : List (String × Option String)) : BuiltURL :=
  let q := setParam [] "key" creds.apiKey
  let q := setParam q "token" creds.token
  { base := baseURL ++ endpoint, query := addParams q params }

/-- Uppercase hexadecimal digit. -/
def hexDigitUpper (n : Nat) : Char :=
  if n < 10 then Char.ofNat ('0'.toNat + n) else Char.ofNat ('A'.toNat + n - 10)

/-- Percent-encoding of one byte, `%XX` with uppercase hex. -/
def percentByte (b : Nat) : String :=
  String.mk ['%', hexDigitUpper (b / 16), hexDigitUpper (b % 16)]

/-- UTF-8 encoding of one scalar value. -/
def utf8Bytes (c : Char) : List Nat :=
  let n := c.toNat
  if n < 0x80 then [n]
  else if n < 0x800 then [0xC0 + n / 0x40, 0x80 + n % 0x40]
  else if n < 0x10000 then
    [0xE0 + n / 0x1000, 0x80 + n / 0x40 % 0x40, 0x80 + n % 0x40]
  else
    [0xF0 + n / 0x40000, 0x80 + n / 0x1000 % 0x40, 0x80 + n / 0x40 % 0x40, 0x80 + n % 0x40]

/-- Characters left unescaped by JS `encodeURIComponent`:
ASCII alphanumerics and `- _ . ! ~ * ' ( )`. -/
def uriUnreserved (c : Char) : Bool :=
  c.isAlpha || c.isDigit ||
    c ∈ ['-', '_', '.', '!', '~', '*', Char.ofNat 39, '(', ')']

/-- One character under JS `encodeURIComponent`. -/
def encodeURIComponentChar (c : Char) : String :=
  if uriUnreserved c then String.singleton c
  else String.join ((utf8Bytes c).map percentByte)

/-- JS `encodeURIComponent`. -/
def encodeURIComponent (s : String) : String :=
  String.join (s.data.map encodeURIComponentChar)

/-- Characters left unescaped by the `application/x-www-form-urlencoded`
serializer used by `URLSearchParams.toString` / `URL.toString`:
ASCII alphanumerics and `* - . _`. -/
def formUnreserved (c : Char) : Bool :=
  c.isAlphanum || c ∈ ['*', '-', '.', '_']

/-- One character under the form-urlencoded serializer (space becomes `+`). -/
def formEncodeChar (c : Char) : String :=
  if c = ' ' then "+"
  else if formUnreserved c then String.singleton c
  else String.join ((utf8Bytes c).map percentByte)

/-- Form-urlencoded serialization of one string. -/
def formEncode (s : String) : String :=
  String.join (s.data.map formEncodeChar)

/-- The `k=v` fragments of the serialized query, in order: this is how each
parameter appears on the wire in `url.toString()`. -/
def wireParts (u : BuiltURL) : List String :=
  u.query.map (fun p => formEncode p.1 ++ "=" ++ formEncode p.2)

/-- `url.toString()`: base, then the serialized query when non-empty. -/
def urlToString (u : BuiltURL) : String :=
  if u.query.isEmpty then u.base
  else u.base ++ "?" ++ String.intercalate "&" (wireParts u)

/-- The options bag of `TrelloClient.search`. -/
structure SearchOptions where
  modelTypes : Option (List String) := none
  boardIds : Option (List String) := none
  boardsLimit : Option Nat := none
  cardsLimit : Option Nat := none
  membersLimit : Option Nat := none
deriving Repr, DecidableEq

/-- The conditional entries of the `params` object built by `search`
(each guarded by JS truthiness: a present array is truthy even when empty,
a number is truthy only when non-zero). -/
def searchExtraParams (opts : Option SearchOptions) : List (String × Option String) :=
  (match opts.bind (·.modelTypes) with
   | some mts => [("modelTypes", some (String.intercalate "," mts))]
   | none => []) ++
  (match opts.bind (·.boardIds) with
   | some ids => [("idBoards", some (String.intercalate "," ids))]
   | none => []) ++
  (match opts.bind (·.boardsLimit) with
   | some n => if n ≠ 0 then [("boards_limit", some (toString n))] else []
   | none => []) ++
  (match opts.bind (·.cardsLimit) with
   | some n => if n ≠ 0 then [("cards_limit", some (toString n))] else []
   | none => []) ++
  (match opts.bind (·.membersLimit) with
   | some n => if n ≠ 0 then [("members_limit", some (toString n))] else []
   | none => [])

/-- The `params` object of `TrelloClient.search`: the caller's query string
is passed through `encodeURIComponent` before being stored, followed by the
conditional option entries in source order. -/
def searchParams (query : String) (opts : Option SearchOptions) :
    List (String × Option String) :=
  ("query", some (encodeURIComponent query)) :: searchExtraParams opts

/-- The URL built by `TrelloClient.search` for its `makeRequest` call. -/
def searchURL (creds : TrelloCredentials) (query : String)
    (opts : Option SearchOptions) : BuiltURL :=
  buildURL creds "/search" (searchParams query opts)

/-- The options bag of `TrelloClient.getListCards`. -/
structure GetListCardsOptions where
  filter : Option String := none
  fields : Option (List String) := none
deriving Repr, DecidableEq

/-- The `params` object of `TrelloClient.getListCards`: option values are
stored verbatim (no `encodeURIComponent`), guarded by JS truthiness. -/
def getListCardsParams (opts : Option GetListCardsOptions) :
    List (String × Option String) :=
  (match opts.bind (·.filter) with
   | some f => if f ≠ "" then [("filter", some f)] else []
   | none => []) ++
  (match opts.bind (·.fields) with
   | some fs => [("fields", some (String.intercalate "," fs))]
   | none => [])

/-- The URL built by `TrelloClient.getListCards`. -/
def getListCardsURL (creds : TrelloCredentials) (listId : String)
    (opts : Option GetListCardsOptions) : BuiltURL :=
  buildURL creds ("/lists/" ++ listId ++ "/cards") (getListCardsParams opts)

/-- An attempt outcome that is classified retryable by `shouldRetry` when it
is thrown: a network-level failure, a timeout, or a response with status
at least 500. -/
def isRetryableFailure {T : Type} : AttemptOutcome T → Bool
  | .response r => decide (500 ≤ r.status)
  | .fetchError _ => true
  | .abortError _ => true

theorem makeRequestGo_success_step {T : Type} (cfg : RetryConfig)
    (outcomes : Nat → AttemptOutcome T) (fuel attempt : Nat) (lastErr : Option JsError)
    (r : HttpResponse T) (houtcome : outcomes attempt = .response r)
    (hfuel : fuel ≠ 0) (hlo : 200 ≤ r.status) (hhi : r.status ≤ 299) :
    makeRequestGo cfg outcomes fuel attempt lastErr =
      { result := .ok { data := r.body, rateLimit := extractRateLimitInfo r.headers }
      , attempts := 1, sleeps := [] } := by
  obtain ⟨f, rfl⟩ : ∃ f, fuel = f + 1 := ⟨fuel - 1, by omega⟩
  have hok : responseOk r = true := by
    simp only [responseOk, decide_eq_true_eq]
    omega
  simp [makeRequestGo, houtcome, hok]

theorem makeRequestGo_retryable_step {T : Type} (cfg : RetryConfig)
    (outcomes : Nat → AttemptOutcome T) (fuel attempt : Nat) (lastErr : Option JsError)
    (hfuel : fuel ≠ 0) (h : isRetryableFailure (outcomes attempt) = true) :
    makeRequestGo cfg outcomes fuel attempt lastErr =
      if attempt < cfg.maxRetries then
        { result := (makeRequestGo cfg outcomes (fuel - 1) (attempt + 1)
              (some (toJsError (outcomes attempt)))).result
        , attempts := (makeRequestGo cfg outcomes (fuel - 1) (attempt + 1)
              (some (toJsError (outcomes attempt)))).attempts + 1
        , sleeps := some (Int.ofNat (calculateBackoffDelay cfg attempt)) ::
            (makeRequestGo cfg outcomes (fuel - 1) (attempt + 1)
              (some (toJsError (outcomes attempt)))).sleeps }
      else
        { result := .error (handleError (some (toJsError (outcomes attempt))))
        , attempts := 1, sleeps := [] } := by
  obtain ⟨f, rfl⟩ : ∃ f, fuel = f + 1 := ⟨fuel - 1, by omega⟩
  by_cases hlt : attempt < cfg.maxRetries
  · rcases houtcome : outcomes attempt with r | msg | msg
    · rw [houtcome] at h
      simp only [isRetryableFailure, decide_eq_true_eq] at h
      have hok : responseOk r = false := by
        simp only [responseOk, decide_eq_false_iff_not]
        omega
      have h429 : r.status ≠ 429 := by omega
      simp [makeRequestGo, houtcome, makeRequestCatch, isResponse429, shouldRetry,
        toJsError, hok, h429, h, hlt]
    · simp [makeRequestGo, houtcome, makeRequestCatch, isResponse429, shouldRetry,
        toJsError, hlt]
    · simp [makeRequestGo, houtcome, makeRequestCatch, isResponse429, shouldRetry,
        toJsError, hlt]
  · rcases houtcome : outcomes attempt with r | msg | msg
    · rw [houtcome] at h
      simp only [isRetryableFailure, decide_eq_true_eq] at h
      have hok : responseOk r = false := by
        simp only [responseOk, decide_eq_false_iff_not]
        omega
      have h429 : r.status ≠ 429 := by omega
      simp [makeRequestGo, houtcome, makeRequestCatch, isResponse429, shouldRetry,
        toJsError, hok, h429, h, hlt]
    · simp [makeRequestGo, houtcome, makeRequestCatch, isResponse429, shouldRetry,
        toJsError, hlt]
    · simp [makeRequestGo, houtcome, makeRequestCatch, isResponse429, shouldRetry,
        toJsError, hlt]

theorem makeRequestGo_attempts_le {T : Type} (cfg : RetryConfig)
    (outcomes : Nat → AttemptOutcome T) :
    ∀ fuel attempt lastErr,
      (makeRequestGo cfg outcomes fuel attempt lastErr).attempts ≤ fuel := by
  intro fuel
  induction fuel with
  | zero =>
    intro attempt lastErr
    simp [makeRequestGo]
  | succ f ih =>
    intro attempt lastErr
    rcases houtcome : outcomes attempt with r | msg | msg <;>
      simp only [makeRequestGo, houtcome, makeRequestCatch] <;>
      split_ifs <;>
      simp only [] <;>
      first
        | exact Nat.succ_le_succ (Nat.zero_le f)
        | exact Nat.succ_le_succ (ih _ _)

theorem makeRequestGo_error_is_normalized {T : Type} (cfg : RetryConfig)
    (outcomes : Nat → AttemptOutcome T) :
    ∀ fuel attempt lastErr (e : TrelloError),
      (makeRequestGo cfg outcomes fuel attempt lastErr).result = .error e →
      ∃ src : Option JsError, e = handleError src := by
  intro fuel
  induction fuel with
  | zero =>
    intro attempt lastErr e herr
    simp only [makeRequestGo, Except.error.injEq] at herr
    exact ⟨lastErr, herr.symm⟩
  | succ f ih =>
    intro attempt lastErr e herr
    rcases houtcome : outcomes attempt with r | msg | msg <;>
      simp only [makeRequestGo, houtcome, makeRequestCatch] at herr <;>
      split_ifs at herr <;>
      simp only [Except.error.injEq, reduceCtorEq] at herr <;>
      first
        | exact ih _ _ _ herr
        | exact ⟨_, herr.symm⟩

theorem handleError_code_enum (src : Option JsError) :
    ∃ c, (handleError src).code = some c ∧
      c ∈ (["NETWORK_ERROR", "TIMEOUT_ERROR", "INVALID_CREDENTIALS",
            "INSUFFICIENT_PERMISSIONS", "NOT_FOUND", "RATE_LIMIT_EXCEEDED",
            "SERVER_ERROR", "API_ERROR", "UNKNOWN_ERROR"] : List String) := by
  rcases src with _ | e
  · exact ⟨"UNKNOWN_ERROR", rfl, by simp⟩
  · rcases e with msg | msg | ⟨status, statusText⟩ | msg
    · exact ⟨"NETWORK_ERROR", rfl, by simp⟩
    · exact ⟨"TIMEOUT_ERROR", rfl, by simp⟩
    · simp only [handleError]
      split_ifs <;> exact ⟨_, rfl, by simp⟩
    · exact ⟨"UNKNOWN_ERROR", rfl, by simp⟩

/-- Claim C1, counterexample: with every physical attempt answered by HTTP
429 (`retry-after: 2`), the executor does NOT keep issuing attempts until a
non-429 outcome; the attempt-count check terminates the run after exactly
`maxRetries = 3` attempts (each preceded by its 2000 ms rate-limit sleep)
and the call fails. -/
theorem claim1_counterexample :
    makeRequest defaultRetryConfig
      (fun _ => (.response ⟨429, "Too Many Requests", [("retry-after", "2")], ()⟩ :
        AttemptOutcome Unit)) =
      { result := .error { message := "Unknown error occurred"
                         , error := some "undefined"
                         , status := none
                         , code := some "UNKNOWN_ERROR" }
      , attempts := 3
      , sleeps := [some 2000, some 2000, some 2000] } := by
  rfl

/-- Claim C1, amended: on a 429 response the executor sleeps
`retryAfter * 1000` ms (where `retryAfter` is `parseInt` of the
`retry-after` header with the `|| '60'` fallback, so 60 when the header is
absent or empty and `NaN` when it is present but unparseable) and then
consumes one attempt slot; the attempt budget does apply to 429 responses,
so a run of `maxRetries` consecutive 429s makes exactly `maxRetries`
attempts, sleeps `maxRetries` times, and then fails (with the unclassified
error, since the 429 path never records `lastError`). -/
theorem claim1_amended (hs : List (String × String)) :
    makeRequest defaultRetryConfig
      (fun _ => (.response ⟨429, "Too Many Requests", hs, ()⟩ : AttemptOutcome Unit)) =
      { result := .error { message := "Unknown error occurred"
                         , error := some "undefined"
                         , status := none
                         , code := some "UNKNOWN_ERROR" }
      , attempts := 3
      , sleeps := List.replicate 3
          (jsMulNum (parseIntJS (jsOrString (headersGet hs "retry-after") "60")) 1000) } := by
  simp [makeRequest, makeRequestGo, responseOk, handleError, defaultRetryConfig,
    List.replicate]

/-- Claim C2: the code maps an exhausted run of 429 responses to the
unclassified error, not to `RATE_LIMIT_EXCEEDED`. The first conjunct
evaluates the executor at the failing input (three straight 429 responses):
the surfaced error is `UNKNOWN_ERROR` / "Unknown error occurred", because the
429 branch `continue`s without assigning `lastError`, so the post-loop
`handleError(lastError)` receives `undefined`. The second conjunct shows the
`RATE_LIMIT_EXCEEDED` mapping the claim describes does exist in
`handleError` — it is just unreachable from the attempt loop. -/
theorem claim2_eval_at_failing_input :
    (makeRequest defaultRetryConfig
      (fun _ => (.response ⟨429, "Too Many Requests", [("retry-after", "1")], ()⟩ :
        AttemptOutcome Unit))).result =
      .error { message := "Unknown error occurred"
             , error := some "undefined"
             , status := none
             , code := some "UNKNOWN_ERROR" } ∧
    handleError (some (.response 429 "Too Many Requests")) =
      { message := "Rate limit exceeded"
      , error := some "429 - Too Many Requests"
      , status := some 429
      , code := some "RATE_LIMIT_EXCEEDED" } :=
  ⟨rfl, rfl⟩

/-- Claim C3, counterexample: a logical call terminated by HTTP 502 (a
status in the 500+ range) surfaces `API_ERROR`, not `SERVER_ERROR` — the
`switch` in `handleError` matches only status exactly 500. -/
theorem claim3_counterexample :
    (makeRequest defaultRetryConfig
      (fun _ => (.response ⟨502, "Bad Gateway", [], ()⟩ : AttemptOutcome Unit))).result =
      .error { message := "HTTP 502 error"
             , error := some "502 - Bad Gateway"
             , status := some 502
             , code := some "API_ERROR" } ∧
    ("API_ERROR" : String) ≠ "SERVER_ERROR" :=
  ⟨rfl, by decide⟩

/-- Claim C4, counterexample: the snapshot fields are not always the integer
parse of the header values. With `x-rate-limit-api-key-limit: abc` the
parse is `NaN` yet the produced `limit` is the fallback 300; with a present
but unparseable `x-rate-limit-api-key-remaining: xyz` the produced
`remaining` is `NaN` (`none`), not the 0 default the claim states. -/
theorem claim4_counterexample :
    extractRateLimitInfo [("x-rate-limit-api-key-limit", "abc")] =
      some { limit := 300, remaining := some 0, resetTime := some 0 } ∧
    parseIntJS "abc" = none ∧
    extractRateLimitInfo
      [("x-rate-limit-api-key-limit", "10"), ("x-rate-limit-api-key-remaining", "xyz")] =
      some { limit := 10, remaining := none, resetTime := some 0 } ∧
    (none : Option Int) ≠ some 0 :=
  ⟨rfl, rfl, rfl, by decide⟩

theorem lookupQ_cons (p : String × String) (ps : List (String × String)) (k : String) :
    lookupQ (p :: ps) k = if p.1 = k then some p.2 else lookupQ ps k := by
  by_cases h : p.1 = k <;> simp [lookupQ, List.find?_cons, h]

theorem lookupQ_setParam_self (q : List (String × String)) (k v : String) :
    lookupQ (setParam q k v) k = some v := by
  induction q with
  | nil => simp [setParam, lookupQ_cons]
  | cons p ps ih =>
    by_cases h : p.1 = k
    · simp [setParam, h, lookupQ_cons]
    · simp [setParam, h, lookupQ_cons, ih]

theorem lookupQ_setParam_ne (q : List (String × String)) (k v k' : String)
    (h : k' ≠ k) :
    lookupQ (setParam q k v) k' = lookupQ q k' := by
  have hk : k ≠ k' := fun hh => h hh.symm
  induction q with
  | nil => simp [setParam, lookupQ_cons, lookupQ, hk]
  | cons p ps ih =>
    by_cases hp : p.1 = k
    · have hp' : p.1 ≠ k' := by rw [hp]; exact hk
      simp [setParam, hp, lookupQ_cons, hk, hp']
    · simp [setParam, hp, lookupQ_cons, ih]

theorem addParams_cons (q : List (String × String)) (kv : String × Option String)
    (ps : List (String × Option String)) :
    addParams q (kv :: ps) =
      addParams (match kv.2 with | some v => setParam q kv.1 v | none => q) ps :=
  rfl

theorem lookupQ_addParams_of_ne (k : String) :
    ∀ (params : List (String × Option String)) (q : List (String × String)),
      (∀ kv ∈ params, kv.1 ≠ k) →
      lookupQ (addParams q params) k = lookupQ q k := by
  intro params
  induction params with
  | nil =>
    intro q _
    rfl
  | cons kv ps ih =>
    intro q h
    rw [addParams_cons]
    have hkv : kv.1 ≠ k := h kv (List.mem_cons_self kv ps)
    have hps : ∀ x ∈ ps, x.1 ≠ k := fun x hx => h x (List.mem_cons_of_mem kv hx)
    rcases hv : kv.2 with _ | v
    · simp only
      exact ih q hps
    · simp only
      rw [ih _ hps, lookupQ_setParam_ne _ _ _ _ (Ne.symm hkv)]

theorem lookupQ_addParams_mem_some (k v : String) :
    ∀ (params : List (String × Option String)) (q : List (String × String)),
      (params.map Prod.fst).Nodup → (k, some v) ∈ params →
      lookupQ (addParams q params) k = some v := by
  intro params
  induction params with
  | nil =>
    intro q _ hm
    cases hm
  | cons kv ps ih =>
    intro q hnd hm
    rw [List.map_cons, List.nodup_cons] at hnd
    rw [addParams_cons]
    rcases List.mem_cons.mp hm with heq | hm'
    · have h1 : kv.1 = k := by rw [← heq]
      have h2 : kv.2 = some v := by rw [← heq]
      rw [h2]
      have hps : ∀ x ∈ ps, x.1 ≠ k := by
        intro x hx hxk
        apply hnd.1
        rw [h1, ← hxk]
        exact List.mem_map_of_mem Prod.fst hx
      rw [lookupQ_addParams_of_ne k ps _ hps, h1]
      exact lookupQ_setParam_self q k v
    · rcases hv : kv.2 with _ | v0 <;> simp only <;> exact ih _ hnd.2 hm'

theorem lookupQ_addParams_mem_none (k : String) :
    ∀ (params : List (String × Option String)) (q : List (String × String)),
      (params.map Prod.fst).Nodup → (k, none) ∈ params →
      lookupQ (addParams q params) k = lookupQ q k := by
  intro params
  induction params with
  | nil =>
    intro q _ hm
    cases hm
  | cons kv ps ih =>
    intro q hnd hm
    rw [List.map_cons, List.nodup_cons] at hnd
    rw [addParams_cons]
    rcases List.mem_cons.mp hm with heq | hm'
    · have h1 : kv.1 = k := by rw [← heq]
      have h2 : kv.2 = none := by rw [← heq]
      rw [h2]
      have hps : ∀ x ∈ ps, x.1 ≠ k := by
        intro x hx hxk
        apply hnd.1
        rw [h1, ← hxk]
        exact List.mem_map_of_mem Prod.fst hx
      exact lookupQ_addParams_of_ne k ps q hps
    · have hk : kv.1 ≠ k := by
        intro hkk
        apply hnd.1
        rw [hkk]
        exact List.mem_map_of_mem Prod.fst hm'
      rcases hv : kv.2 with _ | v0 <;> simp only
      · exact ih _ hnd.2 hm'
      · rw [ih _ hnd.2 hm', lookupQ_setParam_ne _ _ _ _ (Ne.symm hk)]

theorem mem_wireParts_of_lookupQ (u : BuiltURL) (k v : String)
    (h : lookupQ u.query k = some v) :
    (formEncode k ++ "=" ++ formEncode v) ∈ wireParts u := by
  unfold lookupQ at h
  rcases hf : u.query.find? (fun p => p.1 == k) with _ | p
  · rw [hf] at h
    cases h
  · rw [hf] at h
    have hp2 : p.2 = v := Option.some.inj h
    have hmem : p ∈ u.query := List.mem_of_find?_eq_some hf
    have hk : p.1 = k := by
      have hpk := List.find?_some hf
      simpa using hpk
    have hw : formEncode p.1 ++ "=" ++ formEncode p.2 ∈ wireParts u :=
      List.mem_map_of_mem _ hmem
    rwa [hk, hp2] at hw

theorem searchExtraParams_keys (opts : Option SearchOptions) :
    ∀ kv ∈ searchExtraParams opts, kv.1 ≠ "query" := by
  intro kv hkv
  simp only [searchExtraParams, List.mem_append] at hkv
  rcases hkv with ((((h | h) | h) | h) | h) <;>
    (split at h <;> first
      | (split_ifs at h <;> simp_all)
      | simp_all)

/-- Claim C3, amended: an HTTP failure with status 500 or greater that
terminates a logical call surfaces `SERVER_ERROR` only for status exactly
500; every other 5xx status falls into the `switch` default and surfaces
`API_ERROR` with message `HTTP <status> error`. (The raw status is carried
either way, and the three attempts sleep the 1000 ms and 2000 ms
back-offs.) -/
theorem claim3_amended {T : Type} (stat : Nat) (stext : String)
    (hdrs : List (String × String)) (b : T) (h5 : 500 ≤ stat) :
    makeRequest defaultRetryConfig (fun _ => .response ⟨stat, stext, hdrs, b⟩) =
      { result := .error
          { message := if stat = 500 then "Trello server error"
                       else s!"HTTP {stat} error"
          , error := some s!"{stat} - {stext}"
          , status := some stat
          , code := some (if stat = 500 then "SERVER_ERROR" else "API_ERROR") }
      , attempts := 3
      , sleeps := [some 1000, some 2000] } := by
  have h401 : stat ≠ 401 := by omega
  have h403 : stat ≠ 403 := by omega
  have h404 : stat ≠ 404 := by omega
  have h429 : stat ≠ 429 := by omega
  have hok : responseOk (⟨stat, stext, hdrs, b⟩ : HttpResponse T) = false := by
    simp only [responseOk, decide_eq_false_iff_not]
    omega
  have hb1 : calculateBackoffDelay defaultRetryConfig 1 = 1000 := by decide
  have hb2 : calculateBackoffDelay defaultRetryConfig 2 = 1000 * 2 := by decide
  show makeRequestGo defaultRetryConfig (fun _ => .response ⟨stat, stext, hdrs, b⟩)
    3 1 none = _
  simp [makeRequestGo, makeRequestCatch, isResponse429, shouldRetry, toJsError,
    handleError, hok, h429, h401, h403, h404, h5, hb1, hb2,
    (by decide : 1 < defaultRetryConfig.maxRetries),
    (by decide : 2 < defaultRetryConfig.maxRetries),
    (by decide : ¬ (3 < defaultRetryConfig.maxRetries))]
  refine ⟨?_, ?_⟩ <;> split_ifs <;> rfl

/-- Claim C3, amended, witness: three straight 503 responses surface
`API_ERROR` (not `SERVER_ERROR`) with status 503 after 3 attempts. -/
theorem claim3_amended_witness :
    makeRequest defaultRetryConfig
      (fun _ => (.response ⟨503, "Service Unavailable", [], ()⟩ : AttemptOutcome Unit)) =
      { result := .error { message := "HTTP 503 error"
                         , error := some "503 - Service Unavailable"
                         , status := some 503
                         , code := some "API_ERROR" }
      , attempts := 3
      , sleeps := [some 1000, some 2000] } := by
  have h := claim3_amended (T := Unit) 503 "Service Unavailable" [] () (by decide)
  simpa using h

/-- Claim C5: a first-attempt HTTP failure with a status in 400–499 other
than 429 is terminal — exactly one physical attempt, no sleeps — and the
surfaced Normalized Error is `handleError` of the thrown response, whose
code is `INVALID_CREDENTIALS` for 401, `INSUFFICIENT_PERMISSIONS` for 403,
and `NOT_FOUND` for 404. -/
theorem claim5_terminal_4xx {T : Type} (outcomes : Nat → AttemptOutcome T)
    (r : HttpResponse T) (houtcome : outcomes 1 = .response r)
    (hlo : 400 ≤ r.status) (hhi : r.status ≤ 499) (h429 : r.status ≠ 429) :
    makeRequest defaultRetryConfig outcomes =
      { result := .error (handleError (some (.response r.status r.statusText)))
      , attempts := 1, sleeps := [] } ∧
    (handleError (some (.response r.status r.statusText))).status = some r.status ∧
    (r.status = 401 →
      (handleError (some (.response r.status r.statusText))).code =
        some "INVALID_CREDENTIALS") ∧
    (r.status = 403 →
      (handleError (some (.response r.status r.statusText))).code =
        some "INSUFFICIENT_PERMISSIONS") ∧
    (r.status = 404 →
      (handleError (some (.response r.status r.statusText))).code =
        some "NOT_FOUND") := by
  have hok : responseOk r = false := by
    simp only [responseOk, decide_eq_false_iff_not]
    omega
  have h5 : ¬ (500 ≤ r.status) := by omega
  refine ⟨?_, rfl, ?_, ?_, ?_⟩
  · show makeRequestGo defaultRetryConfig outcomes 3 1 none = _
    simp [makeRequestGo, houtcome, makeRequestCatch, isResponse429, shouldRetry,
      hok, h429, h5]
  · intro h401
    simp [handleError, h401]
  · intro h403
    simp [handleError, h403]
  · intro h404
    simp [handleError, h404]

/-- Claim C5, witness: a single 403 response fails after exactly one attempt
with `INSUFFICIENT_PERMISSIONS`. -/
theorem claim5_witness :
    makeRequest defaultRetryConfig
      (fun _ => (.response ⟨403, "Forbidden", [], ()⟩ : AttemptOutcome Unit)) =
      { result := .error (handleError (some (.response 403 "Forbidden")))
      , attempts := 1, sleeps := [] } ∧
    (handleError (some (.response 403 "Forbidden"))).code =
      some "INSUFFICIENT_PERMISSIONS" := by
  have h := claim5_terminal_4xx (fun _ => .response ⟨403, "Forbidden", [], ()⟩)
    ⟨403, "Forbidden", [], ()⟩ rfl (by decide) (by decide) (by decide)
  exact ⟨h.1, h.2.2.2.1 rfl⟩

/-- Claim C6: the executor makes at most `maxRetries` physical attempts for
any outcome sequence, and when every attempt fails with a retryable failure
(network error, timeout, or status ≥ 500) it makes exactly 3 attempts under
the default policy, sleeping the exponential back-off delays
`min(baseDelay * 2^(n-1), maxDelay)` (1000 ms then 2000 ms) between
consecutive attempts before surfacing a Normalized Error. -/
theorem claim6_retry_budget_and_backoff {T : Type} :
    (∀ (cfg : RetryConfig) (outcomes : Nat → AttemptOutcome T),
        (makeRequest cfg outcomes).attempts ≤ cfg.maxRetries) ∧
    (∀ outcomes : Nat → AttemptOutcome T,
        (∀ n, 1 ≤ n → n ≤ 3 → isRetryableFailure (outcomes n) = true) →
        ∃ e : TrelloError,
          makeRequest defaultRetryConfig outcomes =
            { result := .error e
            , attempts := 3
            , sleeps := [some (Int.ofNat (calculateBackoffDelay defaultRetryConfig 1)),
                         some (Int.ofNat (calculateBackoffDelay defaultRetryConfig 2))] } ∧
          calculateBackoffDelay defaultRetryConfig 1 = min (1000 * 2 ^ (1 - 1)) 10000 ∧
          calculateBackoffDelay defaultRetryConfig 2 = min (1000 * 2 ^ (2 - 1)) 10000) := by
  constructor
  · intro cfg outcomes
    exact makeRequestGo_attempts_le cfg outcomes cfg.maxRetries 1 none
  · intro outcomes h
    have h1 := h 1 (by omega) (by omega)
    have h2 := h 2 (by omega) (by omega)
    have h3 := h 3 (by omega) (by omega)
    refine ⟨handleError (some (toJsError (outcomes 3))), ?_, rfl, rfl⟩
    have s1 := makeRequestGo_retryable_step defaultRetryConfig outcomes 3 1 none
      (by decide) h1
    rw [if_pos (by decide : 1 < defaultRetryConfig.maxRetries)] at s1
    have s2 := makeRequestGo_retryable_step defaultRetryConfig outcomes (3 - 1) 2
      (some (toJsError (outcomes 1))) (by decide) h2
    rw [if_pos (by decide : 2 < defaultRetryConfig.maxRetries)] at s2
    have s3 := makeRequestGo_retryable_step defaultRetryConfig outcomes (3 - 1 - 1) 3
      (some (toJsError (outcomes 2))) (by decide) h3
    rw [if_neg (by decide : ¬ (3 < defaultRetryConfig.maxRetries))] at s3
    show makeRequestGo defaultRetryConfig outcomes 3 1 none = _
    rw [s1, s2, s3]

/-- Claim C6, witness: three straight timeouts make exactly 3 attempts with
back-off sleeps of 1000 ms and 2000 ms, within the attempt budget. -/
theorem claim6_witness :
    (makeRequest defaultRetryConfig
        (fun _ => (.abortError "aborted" : AttemptOutcome Unit))).attempts ≤
      defaultRetryConfig.maxRetries ∧
    ∃ e : TrelloError,
      makeRequest defaultRetryConfig
        (fun _ => (.abortError "aborted" : AttemptOutcome Unit)) =
        { result := .error e, attempts := 3, sleeps := [some 1000, some 2000] } := by
  refine ⟨claim6_retry_budget_and_backoff.1 defaultRetryConfig _, ?_⟩
  obtain ⟨e, he, -, -⟩ :=
    claim6_retry_budget_and_backoff.2 (fun _ => (.abortError "aborted" : AttemptOutcome Unit))
      (fun n h1 h2 => rfl)
  exact ⟨e, he⟩

/-- Claim C7: whenever a logical call fails, the single error value it
surfaces is `handleError` applied to some (possibly absent) thrown value —
never a raw response or exception — and its code belongs to the fixed
enumeration of the error taxonomy. -/
theorem claim7_normalized_error {T : Type} (cfg : RetryConfig)
    (outcomes : Nat → AttemptOutcome T) (e : TrelloError)
    (herr : (makeRequest cfg outcomes).result = .error e) :
    (∃ src : Option JsError, e = handleError src) ∧
    ∃ c, e.code = some c ∧
      c ∈ (["NETWORK_ERROR", "TIMEOUT_ERROR", "INVALID_CREDENTIALS",
            "INSUFFICIENT_PERMISSIONS", "NOT_FOUND", "RATE_LIMIT_EXCEEDED",
            "SERVER_ERROR", "API_ERROR", "UNKNOWN_ERROR"] : List String) := by
  obtain ⟨src, rfl⟩ :=
    makeRequestGo_error_is_normalized cfg outcomes cfg.maxRetries 1 none e herr
  exact ⟨⟨src, rfl⟩, handleError_code_enum src⟩

/-- Claim C7, witness: the error surfaced by a single 404 response is a
`handleError` value with a code from the enumeration. -/
theorem claim7_witness :
    (∃ src : Option JsError,
        handleError (some (.response 404 "Not Found")) = handleError src) ∧
    ∃ c, (handleError (some (.response 404 "Not Found"))).code = some c ∧
      c ∈ (["NETWORK_ERROR", "TIMEOUT_ERROR", "INVALID_CREDENTIALS",
            "INSUFFICIENT_PERMISSIONS", "NOT_FOUND", "RATE_LIMIT_EXCEEDED",
            "SERVER_ERROR", "API_ERROR", "UNKNOWN_ERROR"] : List String) :=
  claim7_normalized_error defaultRetryConfig
    (fun _ => (.response ⟨404, "Not Found", [], ()⟩ : AttemptOutcome Unit))
    (handleError (some (.response 404 "Not Found"))) rfl

/-- Claim C8: any attempt that receives a response with status in 200–299
returns `{ data, rateLimit }` built from the parsed body and the rate-limit
headers at once — one physical attempt from that point, no sleeps — both at
the start of a logical call and at an arbitrary position in the attempt
loop. -/
theorem claim8_success_immediate {T : Type} (cfg : RetryConfig)
    (outcomes : Nat → AttemptOutcome T) (r : HttpResponse T)
    (hmr : cfg.maxRetries ≠ 0) (houtcome : outcomes 1 = .response r)
    (hlo : 200 ≤ r.status) (hhi : r.status ≤ 299) :
    makeRequest cfg outcomes =
      { result := .ok { data := r.body, rateLimit := extractRateLimitInfo r.headers }
      , attempts := 1, sleeps := [] } ∧
    (∀ fuel attempt lastErr, outcomes attempt = .response r → fuel ≠ 0 →
      makeRequestGo cfg outcomes fuel attempt lastErr =
        { result := .ok { data := r.body, rateLimit := extractRateLimitInfo r.headers }
        , attempts := 1, sleeps := [] }) :=
  ⟨makeRequestGo_success_step cfg outcomes cfg.maxRetries 1 none r houtcome hmr hlo hhi,
   fun fuel attempt lastErr h h0 =>
     makeRequestGo_success_step cfg outcomes fuel attempt lastErr r h h0 hlo hhi⟩

/-- Claim C8, witness: a first-attempt 200 response returns its payload and
rate-limit snapshot after exactly one attempt. -/
theorem claim8_witness :
    makeRequest defaultRetryConfig
      (fun _ => (.response ⟨200, "OK", [("x-rate-limit-api-key-limit", "300")], 7⟩ :
        AttemptOutcome Nat)) =
      { result := .ok { data := 7
                      , rateLimit := some { limit := 300, remaining := some 0
                                          , resetTime := some 0 } }
      , attempts := 1, sleeps := [] } := by
  have h := (claim8_success_immediate defaultRetryConfig
    (fun _ => .response ⟨200, "OK", [("x-rate-limit-api-key-limit", "300")], 7⟩)
    ⟨200, "OK", [("x-rate-limit-api-key-limit", "300")], 7⟩
    (by decide) rfl (by decide) (by decide)).1
  simpa using h

/-- Claim C9, counterexample: the two credential values are not always in
the built URL. An extra parameter named `key` is written with
`searchParams.set` and overwrites the injected credential, so the query
parameter `key` carries the caller's value instead of the API key. -/
theorem claim9_counterexample :
    lookupQ (buildURL ⟨"APIKEY", "TOKEN"⟩ "/x" [("key", some "evil")]).query "key" =
      some "evil" ∧
    some ("evil" : String) ≠ some "APIKEY" :=
  ⟨rfl, by decide⟩

/-- Claim C9, amended: provided the extra-parameter mapping uses neither of
the reserved names `key` and `token` (extra parameters are written with
`searchParams.set` and would overwrite the injected credentials), the built
URL joins the fixed base address with the path, carries the two credential
values as the query parameters `key` and `token`, contains an entry for
every extra parameter with a defined value, and omits entries whose value is
undefined. -/
theorem claim9_amended (creds : TrelloCredentials) (endpoint : String)
    (params : List (String × Option String))
    (hnd : (params.map Prod.fst).Nodup)
    (hkey : "key" ∉ params.map Prod.fst)
    (htok : "token" ∉ params.map Prod.fst) :
    (buildURL creds endpoint params).base = baseURL ++ endpoint ∧
    lookupQ (buildURL creds endpoint params).query "key" = some creds.apiKey ∧
    lookupQ (buildURL creds endpoint params).query "token" = some creds.token ∧
    (∀ k v, (k, some v) ∈ params →
      lookupQ (buildURL creds endpoint params).query k = some v) ∧
    (∀ k, (k, none) ∈ params → k ≠ "key" → k ≠ "token" →
      lookupQ (buildURL creds endpoint params).query k = none) := by
  have hkey' : ∀ kv ∈ params, kv.1 ≠ "key" := by
    intro kv hkv hk
    exact hkey (hk ▸ List.mem_map_of_mem Prod.fst hkv)
  have htok' : ∀ kv ∈ params, kv.1 ≠ "token" := by
    intro kv hkv hk
    exact htok (hk ▸ List.mem_map_of_mem Prod.fst hkv)
  refine ⟨rfl, ?_, ?_, ?_, ?_⟩
  · show lookupQ (addParams (setParam (setParam [] "key" creds.apiKey) "token"
      creds.token) params) "key" = some creds.apiKey
    rw [lookupQ_addParams_of_ne _ params _ hkey']
    rfl
  · show lookupQ (addParams (setParam (setParam [] "key" creds.apiKey) "token"
      creds.token) params) "token" = some creds.token
    rw [lookupQ_addParams_of_ne _ params _ htok']
    rfl
  · intro k v hm
    exact lookupQ_addParams_mem_some k v params _ hnd hm
  · intro k hm hk htk
    show lookupQ (addParams (setParam (setParam [] "key" creds.apiKey) "token"
      creds.token) params) k = none
    rw [lookupQ_addParams_mem_none k params _ hnd hm]
    have h1 : ¬ (("key" : String) = k) := fun hh => hk hh.symm
    have h2 : ¬ (("token" : String) = k) := fun hh => htk hh.symm
    show lookupQ [("key", creds.apiKey), ("token", creds.token)] k = none
    simp [lookupQ_cons, h1, h2, lookupQ]

/-- Claim C9, amended, witness: with a defined `filter` parameter and an
undefined `u` parameter, the credentials are present, `filter` is present
with its value, and `u` is omitted. -/
theorem claim9_amended_witness :
    lookupQ (buildURL ⟨"K", "T"⟩ "/boards/abc"
        [("filter", some "open"), ("u", none)]).query "key" = some "K" ∧
    lookupQ (buildURL ⟨"K", "T"⟩ "/boards/abc"
        [("filter", some "open"), ("u", none)]).query "filter" = some "open" ∧
    lookupQ (buildURL ⟨"K", "T"⟩ "/boards/abc"
        [("filter", some "open"), ("u", none)]).query "u" = none := by
  have h := claim9_amended ⟨"K", "T"⟩ "/boards/abc"
    [("filter", some "open"), ("u", none)] (by decide) (by decide) (by decide)
  exact ⟨h.2.1, h.2.2.2.1 "filter" "open" (by decide),
    h.2.2.2.2 "u" (by decide) (by decide) (by decide)⟩

/-- Claim C4, amended: a Rate Limit Snapshot is produced if and only if the
limit header is present with a non-empty value. When produced: `limit` is
the integer parse of the limit header when that parse is a non-zero number,
and the fallback 300 when the parse is `NaN` or 0; `remaining` and
`resetTime` are 0 when their header is missing, and otherwise the raw
`parseInt` of the header value — which is `NaN` (not 0) when the value is
unparseable. -/
theorem claim4_amended (hs : List (String × String)) :
    ((extractRateLimitInfo hs).isSome = true ↔
      ∃ s, headersGet hs "x-rate-limit-api-key-limit" = some s ∧ s ≠ "") ∧
    (∀ info, extractRateLimitInfo hs = some info →
      (∀ s, headersGet hs "x-rate-limit-api-key-limit" = some s →
        (∀ n : Int, parseIntJS s = some n → n ≠ 0 → info.limit = n) ∧
        (parseIntJS s = some 0 → info.limit = 300) ∧
        (parseIntJS s = none → info.limit = 300)) ∧
      (headersGet hs "x-rate-limit-api-key-remaining" = none →
        info.remaining = some 0) ∧
      (∀ s, headersGet hs "x-rate-limit-api-key-remaining" = some s → s ≠ "" →
        info.remaining = parseIntJS s) ∧
      (headersGet hs "x-rate-limit-api-key-reset" = none →
        info.resetTime = some 0) ∧
      (∀ s, headersGet hs "x-rate-limit-api-key-reset" = some s → s ≠ "" →
        info.resetTime = parseIntJS s)) := by
  constructor
  · constructor
    · intro hsome
      rcases hl : headersGet hs "x-rate-limit-api-key-limit" with _ | s
      · simp [extractRateLimitInfo, hl, strTruthy] at hsome
      · by_cases hse : s = ""
        · simp [extractRateLimitInfo, hl, strTruthy, hse] at hsome
        · exact ⟨s, rfl, hse⟩
    · rintro ⟨s, hsl, hne⟩
      simp [extractRateLimitInfo, hsl, strTruthy, hne]
  · intro info hinfo
    rcases hl : headersGet hs "x-rate-limit-api-key-limit" with _ | s
    · simp [extractRateLimitInfo, hl, strTruthy] at hinfo
    · by_cases hse : s = ""
      · simp [extractRateLimitInfo, hl, strTruthy, hse] at hinfo
      · simp [extractRateLimitInfo, hl, strTruthy, hse] at hinfo
        subst hinfo
        refine ⟨?_, ?_, ?_, ?_, ?_⟩
        · intro s' hs'
          obtain rfl := Option.some.inj hs'
          refine ⟨?_, ?_, ?_⟩
          · intro n hn hn0
            simp [jsNumOr, hn, hn0]
          · intro h0
            simp [jsNumOr, h0]
          · intro hnone
            simp [jsNumOr, hnone]
        · intro hrm
          rw [hrm]
          rfl
        · intro s' hs' hs'ne
          rw [hs']
          simp [jsOrString, hs'ne]
        · intro hrs
          rw [hrs]
          rfl
        · intro s' hs' hs'ne
          rw [hs']
          simp [jsOrString, hs'ne]

/-- Claim C4, amended, witness: a parseable limit header alone produces a
snapshot whose `limit` is its parse and whose other fields default to 0. -/
theorem claim4_amended_witness :
    (extractRateLimitInfo [("x-rate-limit-api-key-limit", "300")]).isSome = true ∧
    ({ limit := 300, remaining := some 0, resetTime := some 0 } :
      RateLimitInfo).limit = 300 := by
  constructor
  · exact (claim4_amended [("x-rate-limit-api-key-limit", "300")]).1.mpr
      ⟨"300", rfl, by decide⟩
  · exact (((claim4_amended [("x-rate-limit-api-key-limit", "300")]).2
      { limit := 300, remaining := some 0, resetTime := some 0 } rfl).1
      "300" rfl).1 300 rfl (by decide)

/-- Claim C10: the search operation stores `encodeURIComponent` of the
caller's query string as the `query` parameter, and URL serialization
form-encodes that stored value again, so the wire value is double-encoded —
a space travels as `%2520`, not `%20` — whereas a parameter of another
operation (here `getListCards`'s `filter`) is stored verbatim and receives
only the single serialization encoding. -/
theorem claim10_search_double_encodes :
    (∀ (creds : TrelloCredentials) (q : String) (opts : Option SearchOptions),
      lookupQ (searchURL creds q opts).query "query" =
        some (encodeURIComponent q) ∧
      ("query=" ++ formEncode (encodeURIComponent q)) ∈
        wireParts (searchURL creds q opts)) ∧
    encodeURIComponent " " = "%20" ∧
    formEncode (encodeURIComponent " ") = "%2520" ∧
    formEncode (encodeURIComponent " ") ≠ "%20" ∧
    (∀ (creds : TrelloCredentials) (listId f : String), f ≠ "" →
      lookupQ (getListCardsURL creds listId
          (some { filter := some f, fields := none })).query "filter" = some f ∧
      ("filter=" ++ formEncode f) ∈
        wireParts (getListCardsURL creds listId
          (some { filter := some f, fields := none }))) := by
  refine ⟨?_, rfl, rfl, by decide, ?_⟩
  · intro creds q opts
    have hq : lookupQ (searchURL creds q opts).query "query" =
        some (encodeURIComponent q) := by
      show lookupQ (addParams
        (setParam (setParam [] "key" creds.apiKey) "token" creds.token)
        (("query", some (encodeURIComponent q)) :: searchExtraParams opts)) "query" =
        some (encodeURIComponent q)
      rw [addParams_cons]
      show lookupQ (addParams
        (setParam (setParam (setParam [] "key" creds.apiKey) "token" creds.token)
          "query" (encodeURIComponent q))
        (searchExtraParams opts)) "query" = some (encodeURIComponent q)
      rw [lookupQ_addParams_of_ne _ _ _ (searchExtraParams_keys opts)]
      exact lookupQ_setParam_self _ _ _
    exact ⟨hq, mem_wireParts_of_lookupQ _ _ _ hq⟩
  · intro creds listId f hf
    have hparams : getListCardsParams (some { filter := some f, fields := none }) =
        [("filter", some f)] := by
      simp [getListCardsParams, hf]
    have hq : lookupQ (getListCardsURL creds listId
        (some { filter := some f, fields := none })).query "filter" = some f := by
      show lookupQ (addParams
        (setParam (setParam [] "key" creds.apiKey) "token" creds.token)
        (getListCardsParams (some { filter := some f, fields := none }))) "filter" =
        some f
      rw [hparams]
      exact lookupQ_setParam_self _ _ _
    exact ⟨hq, mem_wireParts_of_lookupQ _ _ _ hq⟩

/-- Claim C10, witness: searching for a single space stores `%20` and
transmits `query=%2520`, while a `filter=open` parameter of `getListCards`
is stored verbatim. -/
theorem claim10_witness :
    lookupQ (searchURL ⟨"K", "T"⟩ " " none).query "query" = some "%20" ∧
    ("query=%2520") ∈ wireParts (searchURL ⟨"K", "T"⟩ " " none) ∧
    lookupQ (getListCardsURL ⟨"K", "T"⟩ "L"
        (some { filter := some "open", fields := none })).query "filter" =
      some "open" := by
  have h1 := claim10_search_double_encodes.1 ⟨"K", "T"⟩ " " none
  have h5 := claim10_search_double_encodes.2.2.2.2 ⟨"K", "T"⟩ "L" "open" (by decide)
  exact ⟨h1.1, h1.2, h5.1⟩

end Trello
